import Mathlib

/-!
Shallow embedding of the Scene Session Controller of
`src/web/static/js/ui-interactions.js` (the `SceneManager` class,
second copy, lines 1581-2666).

The JS methods are async state mutators on the singleton fields
`this.currentScene` and `this.selectedObjects`.  We embed them as pure
functions from an explicit state `SMState` (plus the outcome of the one
`fetch` the method awaits, supplied as an argument) to a new state and a
list of observable effects: network requests issued, notifications shown
(`showError` / `showSuccess`), the preview URL assigned to the image
element, the rendered scene, and modal/loading overlay changes.
DOM reads (form field values, element presence) are passed in as
arguments; DOM writes that only change presentation (button disabling,
selection-count text, dropdown population) carry no state and are not
tracked as effects.
-/

namespace SceneMgr

/-- One object of a scene, as delivered by the server
(`scene.objects[i]`).  The numeric `size` field is only interpolated
into display HTML and is kept as its JSON text. -/
structure SceneObject where
  id : String
  name : String
  object_type : String
  size : String
  deriving DecidableEq, Repr

/-- A scene as delivered by `GET /api/scenes/{id}` (`data.scene`).
`relationships` and `statistics` are only interpolated into display
HTML; `relationships` is kept as its length. -/
structure Scene where
  scene_id : String
  name : String
  description : String
  object_count : Nat
  objects : List SceneObject
  relationships_len : Nat
  deriving DecidableEq, Repr

/-- The mutable fields of the `SceneManager` singleton:
`this.currentScene` (`null` or a scene) and `this.selectedObjects`
(a JS `Set`, i.e. an insertion-ordered collection without duplicates,
embedded as a duplicate-free list). -/
structure SMState where
  currentScene : Option Scene
  selectedObjects : List String
  deriving DecidableEq, Repr

/-- The initial state set up by the constructor. -/
def initState : SMState := { currentScene := none, selectedObjects := [] }

/-- `Set.prototype.add`: appends if absent, keeps position if present. -/
def setAdd (s : List String) (x : String) : List String :=
  if x ∈ s then s else s ++ [x]

/-- `Set.prototype.delete`. -/
def setDelete (s : List String) (x : String) : List String :=
  s.filter (fun y => y ≠ x)

/-- JS truthiness test of an optional string (`undefined`, `null` and
`''` are falsy). -/
def jsFalsyStr : Option String → Bool
  | none => true
  | some s => s == ""

/-- JS `String.prototype.trim`: strips leading and trailing
whitespace. -/
def jsTrim (s : String) : String :=
  String.mk (((s.toList.dropWhile Char.isWhitespace).reverse.dropWhile
    Char.isWhitespace).reverse)

/-- JS `x || dflt` for an optional string operand. -/
def jsOr (x : Option String) (dflt : String) : String :=
  match x with
  | some s => if s == "" then dflt else s
  | none => dflt

/-- Notification severity, the `type` argument of `showNotification`. -/
inductive Severity where
  | error
  | success
  | info
  deriving DecidableEq, Repr

/-- The body built by `executeExport` (`exportData`): `object_id` is
present only for an individual export, `object_ids`/`combined_file`
only for a selective one, `filename` only when non-empty. -/
structure ExportData where
  export_type : String
  format : String
  filename : Option String
  object_id : Option String
  object_ids : Option (List String)
  combined_file : Option Bool
  deriving DecidableEq, Repr

/-- A network request issued by the controller. -/
inductive Request where
  | getScenes
  | postCreateScene (name : String) (description : Option String)
  | getScene (sceneId : String)
  | postPreview (sceneId : String)
  | postExport (sceneId : String) (payload : ExportData)
  | postValidate (sceneId : String) (auto_fix : Bool)
  deriving DecidableEq, Repr

/-- An observable effect of one controller method. -/
inductive Effect where
  | fetch (req : Request)
  | notify (msg : String) (sev : Severity)
  | displayPreview (url : String)
  | renderScene (scene : Option Scene)
  | showModal (title : String)
  | closeModal
  | showLoading (msg : String)
  | hideLoading
  deriving DecidableEq, Repr

/-- Outcome of the one awaited `fetch(...)`/`response.json()` pair of a
method: either the promise chain rejects (transport error, malformed
JSON), or a parsed body `data` arrives together with `response.ok`. -/
inductive FetchOutcome (α : Type) where
  | thrown : FetchOutcome α
  | reply (ok : Bool) (data : α) : FetchOutcome α
  deriving DecidableEq, Repr

/-- Body of `GET /api/scenes/{id}`.  `scene` is read only when
`success` is true (the server contract includes it exactly then). -/
structure LoadSceneResp where
  success : Bool
  scene : Scene
  error : Option String
  deriving DecidableEq, Repr

/-- Body of `POST /api/scenes` (`data.scene.scene_id` flattened). -/
structure CreateSceneResp where
  success : Bool
  scene_id : String
  error : Option String
  deriving DecidableEq, Repr

/-- Body of `POST /api/scenes/{id}/preview`. -/
structure PreviewResp where
  success : Bool
  preview_url : String
  error : Option String
  deriving DecidableEq, Repr

/-- Body of `POST /api/scene/{id}/export`.  The download list is only
interpolated into the success modal's HTML and is not tracked. -/
structure ExportResp where
  success : Bool
  error : Option String
  deriving DecidableEq, Repr

/-- Body of `POST /api/scenes/{id}/validate`.  The `validation` payload
is only interpolated into the results modal's HTML. -/
structure ValidateResp where
  success : Bool
  error : Option String
  deriving DecidableEq, Repr

/-- The part of `loadScene(sceneId)` that runs after the awaited fetch
resolves (the response continuation).  Note it consults only the state
at resume time: the method carries no tag identifying which request the
response answers. -/
def loadSceneResolve (st : SMState) (out : FetchOutcome LoadSceneResp) :
    SMState × List Effect :=
  match out with
  | .thrown => (st, [Effect.notify "Failed to load scene" Severity.error])
  | .reply _ data =>
    if data.success then
      ({ currentScene := some data.scene, selectedObjects := [] },
       [Effect.renderScene (some data.scene)])
    else
      (st, [Effect.notify (jsOr data.error "Failed to load scene") Severity.error])

/-- `loadScene(sceneId)` (lines 1788-1810).  A falsy `sceneId` unloads:
`currentScene = null`, re-render, return — `selectedObjects` is left
untouched.  Otherwise the scene is fetched and the response handled by
`loadSceneResolve`. -/
def loadScene (st : SMState) (sceneId : String)
    (out : FetchOutcome LoadSceneResp) : SMState × List Effect :=
  if sceneId == "" then
    ({ st with currentScene := none }, [Effect.renderScene none])
  else
    let r := loadSceneResolve st out
    (r.1, Effect.fetch (Request.getScene sceneId) :: r.2)

/-- State part of `toggleObjectSelection(objectId, selected)`
(lines 1906-1927).  The method guards on nothing: it mutates the set
unconditionally; the remaining lines only update display text and a
button's disabled flag. -/
def toggleObjectSelection (st : SMState) (objectId : String)
    (selected : Bool) : SMState :=
  if selected then
    { st with selectedObjects := setAdd st.selectedObjects objectId }
  else
    { st with selectedObjects := setDelete st.selectedObjects objectId }

/-- `createScene(name, description)` (lines 1739-1764).  Every path is
inside the `try`; the method returns the created id or `null` (embedded
as `Option String`) and never changes the session state.  On success it
also fires `loadScenesList()` without awaiting it (that call's own
response only repopulates the dropdown or shows an error later; only
its request is tracked). -/
def createScene (st : SMState) (name : String) (description : Option String)
    (out : FetchOutcome CreateSceneResp) :
    Option String × SMState × List Effect :=
  let req := Effect.fetch (Request.postCreateScene name description)
  match out with
  | .thrown =>
    (none, st, [req, Effect.notify "Failed to create scene" Severity.error])
  | .reply _ data =>
    if data.success then
      (some data.scene_id, st,
       [req,
        Effect.notify ("Scene \"" ++ name ++ "\" created successfully!")
          Severity.success,
        Effect.fetch Request.getScenes])
    else
      (none, st,
       [req, Effect.notify (jsOr data.error "Failed to create scene")
          Severity.error])

/-- `generateScenePreview()` (lines 1929-1965).  Requires a current
scene, else an error and no request.  On success the URL from the
response is handed to `displayScenePreview` unchanged, which assigns it
to the image source verbatim. -/
def generateScenePreview (st : SMState) (out : FetchOutcome PreviewResp) :
    SMState × List Effect :=
  match st.currentScene with
  | none => (st, [Effect.notify "No scene selected" Severity.error])
  | some scene =>
    let req := Effect.fetch (Request.postPreview scene.scene_id)
    match out with
    | .thrown =>
      (st, [req, Effect.notify "Failed to generate scene preview" Severity.error])
    | .reply _ data =>
      if data.success then
        (st, [req, Effect.displayPreview data.preview_url,
              Effect.notify "Scene preview generated successfully!" Severity.success])
      else
        (st, [req,
              Effect.notify (jsOr data.error "Failed to generate scene preview")
                Severity.error])

/-- `showExportModal(exportType)` (lines 1986-2007).  Returns whether
the export modal was opened.  No current scene: error, no modal.
Selective with an empty selection: error, no modal.  Otherwise the
modal (whose buttons are the only wired callers of `executeExport`)
is shown. -/
def showExportModal (st : SMState) (exportType : String) :
    Bool × List Effect :=
  match st.currentScene with
  | none => (false, [Effect.notify "No scene selected" Severity.error])
  | some _ =>
    if exportType == "selective" && st.selectedObjects.length == 0 then
      (false, [Effect.notify "No objects selected for selective export"
                 Severity.error])
    else
      (true, [Effect.showModal "Export Scene"])

/-- `executeExport(exportType)` (lines 2116-2163).  Form reads
(`export-format`, `export-filename`, `individual-object-select`,
`combined-file`) are passed in as the optional field values.  For an
individual export a falsy object id aborts before any overlay change.
The fetch interpolates `this.currentScene.scene_id`; with no current
scene that property access throws inside the `try`, so the catch
reports "Export failed" and no request is issued. -/
def executeExport (st : SMState) (exportType : String)
    (formatField filenameField objectSelectField : Option String)
    (combinedChecked : Option Bool)
    (out : FetchOutcome ExportResp) : SMState × List Effect :=
  let format := jsOr formatField "obj"
  let filename := jsOr filenameField ""
  let base : ExportData :=
    { export_type := exportType, format := format,
      filename := if filename == "" then none else some filename,
      object_id := none, object_ids := none, combined_file := none }
  if exportType == "individual" && jsFalsyStr objectSelectField then
    (st, [Effect.notify "Please select an object to export" Severity.error])
  else
    let payload :=
      if exportType == "individual" then
        { base with object_id := some (jsOr objectSelectField "") }
      else if exportType == "selective" then
        { base with object_ids := some st.selectedObjects,
                    combined_file := some (combinedChecked ≠ some false) }
      else base
    match st.currentScene with
    | none =>
      (st, [Effect.closeModal, Effect.showLoading "Exporting...",
            Effect.notify "Export failed" Severity.error, Effect.hideLoading])
    | some scene =>
      let req := Effect.fetch (Request.postExport scene.scene_id payload)
      match out with
      | .thrown =>
        (st, [Effect.closeModal, Effect.showLoading "Exporting...", req,
              Effect.notify "Export failed" Severity.error, Effect.hideLoading])
      | .reply ok data =>
        if ok && data.success then
          (st, [Effect.closeModal, Effect.showLoading "Exporting...", req,
                Effect.showModal "Export Complete", Effect.hideLoading])
        else
          (st, [Effect.closeModal, Effect.showLoading "Exporting...", req,
                Effect.notify (jsOr data.error "Export failed") Severity.error,
                Effect.hideLoading])

/-- `validateScene()` (lines 2189-2219).  Requires a current scene,
else an error and no request; otherwise posts `{auto_fix: false}` and
shows the results modal or the error. -/
def validateScene (st : SMState) (out : FetchOutcome ValidateResp) :
    SMState × List Effect :=
  match st.currentScene with
  | none => (st, [Effect.notify "No scene selected" Severity.error])
  | some scene =>
    let req := Effect.fetch (Request.postValidate scene.scene_id false)
    match out with
    | .thrown =>
      (st, [Effect.showLoading "Validating scene...", req,
            Effect.notify "Validation failed" Severity.error, Effect.hideLoading])
    | .reply _ data =>
      if data.success then
        (st, [Effect.showLoading "Validating scene...", req,
              Effect.showModal "Scene Validation Results", Effect.hideLoading])
      else
        (st, [Effect.showLoading "Validating scene...", req,
              Effect.notify (jsOr data.error "Validation failed") Severity.error,
              Effect.hideLoading])

/-- `submitCreateScene()` (lines 2346-2366).  Reads and trims the two
form fields; a falsy trimmed name is rejected before anything else.
Otherwise the modal closes, `createScene` runs, and exactly when the
returned id is truthy and the `scene-select` element exists the new
scene is loaded. -/
def submitCreateScene (st : SMState) (nameField descField : Option String)
    (hasSceneSelect : Bool) (createOut : FetchOutcome CreateSceneResp)
    (loadOut : FetchOutcome LoadSceneResp) : SMState × List Effect :=
  let name := nameField.map jsTrim
  let description := descField.map jsTrim
  if jsFalsyStr name then
    (st, [Effect.notify "Scene name is required" Severity.error])
  else
    let r := createScene st (name.getD "") description createOut
    let base := Effect.closeModal :: r.2.2
    match r.1 with
    | some sceneId =>
      if sceneId == "" then
        (r.2.1, base)
      else if hasSceneSelect then
        let lr := loadScene r.2.1 sceneId loadOut
        (lr.1, base ++ lr.2)
      else
        (r.2.1, base)
    | none => (r.2.1, base)

/-- The wired selective-export flow: `showExportModal('selective')`
opens the modal, and the "Export Selected" button it contains is the
only caller of `executeExport('selective')` (no object-select field in
that modal). -/
def requestExportSelective (st : SMState)
    (formatField filenameField : Option String) (combinedChecked : Option Bool)
    (out : FetchOutcome ExportResp) : SMState × List Effect :=
  let m := showExportModal st "selective"
  if m.1 then
    let r := executeExport st "selective" formatField filenameField none
      combinedChecked out
    (r.1, m.2 ++ r.2)
  else
    (st, m.2)

/-- True when the effect is a network request. -/
def Effect.isFetch : Effect → Bool
  | .fetch _ => true
  | _ => false

/-- Whether any network request is among the effects. -/
def hasFetch (effs : List Effect) : Bool :=
  effs.any Effect.isFetch

/-- Whether an error notification is among the effects. -/
def hasErrorNotify (effs : List Effect) : Bool :=
  effs.any (fun e =>
    match e with
    | .notify _ .error => true
    | _ => false)

/-- The URLs assigned to the preview image, in order. -/
def displayedUrls (effs : List Effect) : List String :=
  effs.filterMap (fun e =>
    match e with
    | .displayPreview u => some u
    | _ => none)

/-- Whether a scene load was issued (the auto-load of
`submitCreateScene` is the only `GET /api/scenes/{id}` it can emit). -/
def autoLoadOccurred (effs : List Effect) : Bool :=
  effs.any (fun e =>
    match e with
    | .fetch (.getScene _) => true
    | _ => false)

/-- JS truthiness of the optional created id (`if (sceneId)`). -/
def jsTruthyOptStr : Option String → Bool
  | none => false
  | some s => s != ""

/-- The id `createScene` hands back, as a function of the fetch
outcome. -/
def createdId (out : FetchOutcome CreateSceneResp) : Option String :=
  match out with
  | .thrown => none
  | .reply _ data => if data.success then some data.scene_id else none

end SceneMgr

namespace SceneMgr

/-- A sample scene with id "A". -/
def sceneA : Scene :=
  { scene_id := "A", name := "Scene A", description := "first scene",
    object_count := 1,
    objects := [{ id := "a1", name := "Cube A", object_type := "cube", size := "1.0" }],
    relationships_len := 0 }

/-- A sample scene with id "B". -/
def sceneB : Scene :=
  { scene_id := "B", name := "Scene B", description := "second scene",
    object_count := 1,
    objects := [{ id := "b1", name := "Sphere B", object_type := "sphere", size := "2.0" }],
    relationships_len := 0 }

/-- A sample scene with three objects "o1", "o2", "o3". -/
def sceneO : Scene :=
  { scene_id := "S", name := "Scene O", description := "",
    object_count := 3,
    objects := [{ id := "o1", name := "Object 1", object_type := "cube", size := "1.0" },
                { id := "o2", name := "Object 2", object_type := "sphere", size := "1.0" },
                { id := "o3", name := "Object 3", object_type := "cylinder", size := "1.0" }],
    relationships_len := 0 }

/-- A session state with `sceneA` loaded and nothing selected. -/
def stLoadedA : SMState := { currentScene := some sceneA, selectedObjects := [] }

/-- A successful load response carrying `sceneA`. -/
def loadRespA : FetchOutcome LoadSceneResp :=
  FetchOutcome.reply true { success := true, scene := sceneA, error := none }

/-- A successful load response carrying `sceneB`. -/
def loadRespB : FetchOutcome LoadSceneResp :=
  FetchOutcome.reply true { success := true, scene := sceneB, error := none }

/-- A successful preview response for a fixed server URL. -/
def previewRespA : FetchOutcome PreviewResp :=
  FetchOutcome.reply true
    { success := true, preview_url := "/previews/scene_A.png", error := none }

/-- A successful create response assigning id "N1". -/
def createOkResp : FetchOutcome CreateSceneResp :=
  FetchOutcome.reply true { success := true, scene_id := "N1", error := none }

end SceneMgr

namespace SceneMgr

/-- Claim C1 counterexample: loads for "A" and then "B" are issued
(issuing a load for a non-empty id does not touch the state, see
`loadScene`); "B"'s response arrives first and establishes `sceneB`;
then "A"'s stale response is processed and overwrites `sceneB` with
`sceneA` — the controller carries no request tag and does not drop the
stale response, contradicting the claim. -/
theorem c1_counterexample :
    (loadSceneResolve initState loadRespB).1.currentScene = some sceneB ∧
    (loadSceneResolve (loadSceneResolve initState loadRespB).1
        loadRespA).1.currentScene = some sceneA ∧
    sceneA ≠ sceneB :=
  ⟨rfl, rfl, by decide⟩

/-- Claim C1 (amended): `loadScene` carries no request tag, so the
response continuation is last-writer-wins: processing any successful
response installs that response's scene over whatever state is current,
including state established by a newer request — a late-arriving
response for "A" does overwrite the session state established by "B"'s
response. -/
theorem c1_amended_late_response_overwrites (st : SMState) (ok : Bool)
    (data : LoadSceneResp) (h : data.success = true) :
    (loadSceneResolve st (FetchOutcome.reply ok data)).1 =
      { currentScene := some data.scene, selectedObjects := [] } := by
  simp [loadSceneResolve, h]

/-- Witness for `c1_amended_late_response_overwrites` at the concrete
stale-response scenario of the counterexample. -/
theorem c1_amended_witness :
    (loadSceneResolve { currentScene := some sceneB, selectedObjects := [] }
        (FetchOutcome.reply true
          { success := true, scene := sceneA, error := none })).1 =
      { currentScene := some sceneA, selectedObjects := [] } :=
  c1_amended_late_response_overwrites
    { currentScene := some sceneB, selectedObjects := [] } true
    { success := true, scene := sceneA, error := none } rfl

/-- Claim C2 counterexample: unloading via `loadScene('')` sets
`currentScene` to `null` but leaves the prior Selection `["a1"]` in
place, contradicting "after any load or unload the Selection is
empty". -/
theorem c2_counterexample :
    (loadScene { currentScene := some sceneA, selectedObjects := ["a1"] } ""
        FetchOutcome.thrown).1 =
      { currentScene := none, selectedObjects := ["a1"] } ∧
    (["a1"] : List String) ≠ [] :=
  ⟨rfl, by decide⟩

/-- Claim C2 (amended): a successful scene load clears the Selection,
but the unload path (`loadScene` with an empty id) only nulls the
current scene and leaves the Selection unchanged. -/
theorem c2_amended_selection_clearing (st : SMState) :
    (∀ sceneId ok data, sceneId ≠ "" → data.success = true →
      (loadScene st sceneId (FetchOutcome.reply ok data)).1.selectedObjects = []) ∧
    (∀ out, (loadScene st "" out).1 =
      { currentScene := none, selectedObjects := st.selectedObjects }) := by
  constructor
  · intro sceneId ok data hid hs
    simp [loadScene, loadSceneResolve, hid, hs]
  · intro out
    simp [loadScene]

/-- Witness for `c2_amended_selection_clearing` at a state holding a
selection: the successful load of "B" clears it, the unload keeps it. -/
theorem c2_amended_witness :
    (loadScene { currentScene := some sceneA, selectedObjects := ["a1"] } "B"
        loadRespB).1.selectedObjects = [] ∧
    (loadScene { currentScene := some sceneA, selectedObjects := ["a1"] } ""
        FetchOutcome.thrown).1 =
      { currentScene := none, selectedObjects := ["a1"] } :=
  ⟨(c2_amended_selection_clearing
      { currentScene := some sceneA, selectedObjects := ["a1"] }).1
      "B" true { success := true, scene := sceneB, error := none }
      (by decide) rfl,
    (c2_amended_selection_clearing
      { currentScene := some sceneA, selectedObjects := ["a1"] }).2
      FetchOutcome.thrown⟩

end SceneMgr

namespace SceneMgr

/-- `toggleObjectSelection` folded over a sequence of
`(objectId, included)` checkbox events. -/
def applyToggles (st : SMState) (ts : List (String × Bool)) : SMState :=
  ts.foldl (fun s t => toggleObjectSelection s t.1 t.2) st

/-- The `included` flag of the last toggle of `x` in the sequence, if
any. -/
def lastToggle : List (String × Bool) → String → Option Bool
  | [], _ => none
  | t :: rest, x =>
    match lastToggle rest x with
    | some b => some b
    | none => if t.1 = x then some t.2 else none

theorem mem_setAdd_self (s : List String) (x : String) : x ∈ setAdd s x := by
  unfold setAdd
  split
  · assumption
  · simp

theorem not_mem_setDelete_self (s : List String) (x : String) :
    x ∉ setDelete s x := by
  simp [setDelete]

theorem mem_setAdd_ne (s : List String) (x y : String) (h : x ≠ y) :
    x ∈ setAdd s y ↔ x ∈ s := by
  unfold setAdd
  split
  · exact Iff.rfl
  · simp [h]

theorem mem_setDelete_ne (s : List String) (x y : String) (h : x ≠ y) :
    x ∈ setDelete s y ↔ x ∈ s := by
  simp [setDelete, h]

theorem toggle_currentScene (st : SMState) (objectId : String)
    (selected : Bool) :
    (toggleObjectSelection st objectId selected).currentScene =
      st.currentScene := by
  unfold toggleObjectSelection
  split <;> rfl

theorem mem_toggle (st : SMState) (objectId x : String) (selected : Bool) :
    x ∈ (toggleObjectSelection st objectId selected).selectedObjects ↔
      (if objectId = x then selected = true
       else x ∈ st.selectedObjects) := by
  by_cases hx : objectId = x
  · subst hx
    cases selected <;>
      simp [toggleObjectSelection, mem_setAdd_self, not_mem_setDelete_self]
  · have hx' : x ≠ objectId := fun h => hx h.symm
    cases selected <;>
      simp [toggleObjectSelection, hx, mem_setAdd_ne _ _ _ hx',
        mem_setDelete_ne _ _ _ hx']

/-- Claim C3 counterexample: in the initial state no scene is loaded,
yet `toggleObjectSelection("x", true)` is not a no-op — it adds "x"
(an id belonging to no scene) to the Selection. -/
theorem c3_counterexample :
    initState.currentScene = none ∧
    (toggleObjectSelection initState "x" true).selectedObjects = ["x"] ∧
    (["x"] : List String) ≠ [] :=
  ⟨rfl, rfl, by decide⟩

/-- Claim C3 (amended): for every toggle sequence, an id is in the
resulting Selection iff its last toggle had `included = true` (or it
was already selected and never toggled); the method installs no guard:
it neither requires a loaded scene nor restricts ids to the current
scene's objects, and it never touches `currentScene`. -/
theorem c3_amended_last_toggle_wins (st : SMState)
    (ts : List (String × Bool)) (x : String) :
    (applyToggles st ts).currentScene = st.currentScene ∧
    (x ∈ (applyToggles st ts).selectedObjects ↔
      (lastToggle ts x = some true ∨
        (lastToggle ts x = none ∧ x ∈ st.selectedObjects))) := by
  induction ts generalizing st with
  | nil => simp [applyToggles, lastToggle]
  | cons t rest ih =>
    have step : applyToggles st (t :: rest) =
        applyToggles (toggleObjectSelection st t.1 t.2) rest := rfl
    rw [step]
    refine ⟨?_, ?_⟩
    · rw [(ih (toggleObjectSelection st t.1 t.2)).1, toggle_currentScene]
    · rw [(ih (toggleObjectSelection st t.1 t.2)).2]
      have hcons : lastToggle (t :: rest) x =
          match lastToggle rest x with
          | some b => some b
          | none => if t.1 = x then some t.2 else none := rfl
      rw [hcons]
      cases hrest : lastToggle rest x with
      | some b => simp
      | none =>
        simp only [hrest]
        rw [mem_toggle]
        by_cases hx : t.1 = x
        · cases hb : t.2 <;> simp [hx, hb]
        · simp [hx]

/-- Claim C4 counterexample: with `sceneA` loaded, a failing load of
"B" (the fetch throws) reports the error but leaves `currentScene` as
`sceneA` — the session does not transition to Unloaded. -/
theorem c4_counterexample :
    (loadScene stLoadedA "B" FetchOutcome.thrown).1.currentScene =
      some sceneA ∧
    some sceneA ≠ (none : Option Scene) ∧
    hasErrorNotify (loadScene stLoadedA "B" FetchOutcome.thrown).2 = true :=
  ⟨rfl, by decide, rfl⟩

/-- Claim C4 (amended): on a failing load of a non-empty id — the fetch
throws or the response carries `success: false` — the error is reported
to the Notification Sink and the session state (current scene and
Selection alike) is left entirely unchanged; `currentScene` is not
reset to `null`. -/
theorem c4_amended_failure_preserves_state (st : SMState) (sceneId : String)
    (h : sceneId ≠ "") :
    ((loadScene st sceneId FetchOutcome.thrown).1 = st ∧
      hasErrorNotify (loadScene st sceneId FetchOutcome.thrown).2 = true) ∧
    (∀ ok data, data.success = false →
      (loadScene st sceneId (FetchOutcome.reply ok data)).1 = st ∧
      hasErrorNotify
        (loadScene st sceneId (FetchOutcome.reply ok data)).2 = true) := by
  refine ⟨⟨?_, ?_⟩, fun ok data hd => ⟨?_, ?_⟩⟩ <;>
    simp [loadScene, loadSceneResolve, hasErrorNotify, h, *]

/-- Witness for `c4_amended_failure_preserves_state`: both failure
shapes at the loaded state `stLoadedA`. -/
theorem c4_amended_witness :
    ((loadScene stLoadedA "B" FetchOutcome.thrown).1 = stLoadedA ∧
      hasErrorNotify (loadScene stLoadedA "B" FetchOutcome.thrown).2 = true) ∧
    ((loadScene stLoadedA "B"
        (FetchOutcome.reply true
          { success := false, scene := sceneB, error := some "not found" })).1 =
        stLoadedA ∧
      hasErrorNotify (loadScene stLoadedA "B"
        (FetchOutcome.reply true
          { success := false, scene := sceneB, error := some "not found" })).2 =
        true) :=
  ⟨(c4_amended_failure_preserves_state stLoadedA "B" (by decide)).1,
    (c4_amended_failure_preserves_state stLoadedA "B" (by decide)).2 true
      { success := false, scene := sceneB, error := some "not found" } rfl⟩

end SceneMgr

namespace SceneMgr

/-- Claim C5: the wired selective-export flow invoked with an empty
Selection issues no network request, leaves the state unchanged, and
reports an error; whenever a scene is loaded that error is exactly the
local "No objects selected for selective export" validation message
(with no scene loaded the earlier "No scene selected" precondition
check fires instead, still with no network request). -/
theorem c5_selective_export_empty_selection (st : SMState)
    (formatField filenameField : Option String) (combinedChecked : Option Bool)
    (out : FetchOutcome ExportResp) (h : st.selectedObjects = []) :
    hasFetch (requestExportSelective st formatField filenameField
        combinedChecked out).2 = false ∧
    hasErrorNotify (requestExportSelective st formatField filenameField
        combinedChecked out).2 = true ∧
    (requestExportSelective st formatField filenameField
        combinedChecked out).1 = st ∧
    (st.currentScene ≠ none →
      (requestExportSelective st formatField filenameField
          combinedChecked out).2 =
        [Effect.notify "No objects selected for selective export"
          Severity.error]) := by
  cases hc : st.currentScene <;>
    simp [requestExportSelective, showExportModal, hasFetch, hasErrorNotify,
      Effect.isFetch, hc, h]

/-- Witness for `c5_selective_export_empty_selection` at the loaded
state `stLoadedA` (empty Selection). -/
theorem c5_witness :
    hasFetch (requestExportSelective stLoadedA none none none
        FetchOutcome.thrown).2 = false ∧
    hasErrorNotify (requestExportSelective stLoadedA none none none
        FetchOutcome.thrown).2 = true ∧
    (requestExportSelective stLoadedA none none none
        FetchOutcome.thrown).1 = stLoadedA ∧
    (stLoadedA.currentScene ≠ none →
      (requestExportSelective stLoadedA none none none
          FetchOutcome.thrown).2 =
        [Effect.notify "No objects selected for selective export"
          Severity.error]) :=
  c5_selective_export_empty_selection stLoadedA none none none
    FetchOutcome.thrown rfl

/-- Claim C6: the create-scene form submission with a name that trims
to the empty string (or a missing name field) is rejected locally with
the "Scene name is required" validation error; `createScene` is never
reached and no network request is issued. -/
theorem c6_create_scene_empty_name (st : SMState)
    (nameField descField : Option String) (hasSceneSelect : Bool)
    (createOut : FetchOutcome CreateSceneResp)
    (loadOut : FetchOutcome LoadSceneResp)
    (h : jsFalsyStr (nameField.map jsTrim) = true) :
    submitCreateScene st nameField descField hasSceneSelect createOut loadOut =
      (st, [Effect.notify "Scene name is required" Severity.error]) ∧
    hasFetch (submitCreateScene st nameField descField hasSceneSelect
        createOut loadOut).2 = false := by
  refine ⟨?_, ?_⟩ <;>
    simp [submitCreateScene, hasFetch, Effect.isFetch, h]

/-- Witness for `c6_create_scene_empty_name` at the empty-string name
(the `createScene('', '')` scenario of the spec). -/
theorem c6_witness :
    submitCreateScene initState (some "") (some "") true createOkResp
        FetchOutcome.thrown =
      (initState, [Effect.notify "Scene name is required" Severity.error]) ∧
    hasFetch (submitCreateScene initState (some "") (some "") true createOkResp
        FetchOutcome.thrown).2 = false :=
  c6_create_scene_empty_name initState (some "") (some "") true createOkResp
    FetchOutcome.thrown (by decide)

/-- Claim C7 counterexample: with `sceneA` loaded, two consecutive
preview generations whose server responses both carry the identical
URL "/previews/scene_A.png" hand the Renderer that same URL twice,
unmodified — no cache-busting suffix is ever appended, so the two
display URLs are not distinct. -/
theorem c7_counterexample :
    displayedUrls (generateScenePreview stLoadedA previewRespA).2 =
      ["/previews/scene_A.png"] ∧
    displayedUrls
      (generateScenePreview (generateScenePreview stLoadedA previewRespA).1
        previewRespA).2 = ["/previews/scene_A.png"] :=
  ⟨rfl, rfl⟩

/-- Claim C7 (amended): on a successful preview generation the URL
handed to the Renderer is exactly the server's `preview_url`, with no
cache-busting token appended; hence two consecutive previews returning
the same server URL display the same URL.  The session state is
unchanged. -/
theorem c7_amended_preview_url_unmodified (st : SMState) (scene : Scene)
    (ok : Bool) (data : PreviewResp) (hs : st.currentScene = some scene)
    (hd : data.success = true) :
    displayedUrls (generateScenePreview st (FetchOutcome.reply ok data)).2 =
      [data.preview_url] ∧
    (generateScenePreview st (FetchOutcome.reply ok data)).1 = st := by
  simp [generateScenePreview, displayedUrls, hs, hd]

/-- Witness for `c7_amended_preview_url_unmodified` at the counterexample
input. -/
theorem c7_amended_witness :
    displayedUrls (generateScenePreview stLoadedA
        (FetchOutcome.reply true
          { success := true, preview_url := "/previews/scene_A.png",
            error := none })).2 = ["/previews/scene_A.png"] ∧
    (generateScenePreview stLoadedA
        (FetchOutcome.reply true
          { success := true, preview_url := "/previews/scene_A.png",
            error := none })).1 = stLoadedA :=
  c7_amended_preview_url_unmodified stLoadedA sceneA true
    { success := true, preview_url := "/previews/scene_A.png", error := none }
    rfl rfl

/-- Claim C8: each scene-requiring operation invoked with no loaded
scene — validation, preview generation, and opening any export modal —
fails fast with the same local "No scene selected" error, performs no
network request and no other effect, and leaves the state unchanged;
the guard is inside the method itself, so it acts identically for
every call origin. -/
theorem c8_precondition_no_scene (st : SMState)
    (h : st.currentScene = none) :
    (∀ vOut, validateScene st vOut =
      (st, [Effect.notify "No scene selected" Severity.error])) ∧
    (∀ pOut, generateScenePreview st pOut =
      (st, [Effect.notify "No scene selected" Severity.error])) ∧
    (∀ exportType, showExportModal st exportType =
      (false, [Effect.notify "No scene selected" Severity.error])) := by
  refine ⟨fun vOut => ?_, fun pOut => ?_, fun exportType => ?_⟩ <;>
    simp [validateScene, generateScenePreview, showExportModal, h]

/-- Witness for `c8_precondition_no_scene` at the initial state with
concrete outcomes. -/
theorem c8_witness :
    validateScene initState FetchOutcome.thrown =
      (initState, [Effect.notify "No scene selected" Severity.error]) ∧
    generateScenePreview initState FetchOutcome.thrown =
      (initState, [Effect.notify "No scene selected" Severity.error]) ∧
    showExportModal initState "complete" =
      (false, [Effect.notify "No scene selected" Severity.error]) :=
  ⟨(c8_precondition_no_scene initState rfl).1 FetchOutcome.thrown,
    (c8_precondition_no_scene initState rfl).2.1 FetchOutcome.thrown,
    (c8_precondition_no_scene initState rfl).2.2 "complete"⟩

end SceneMgr

namespace SceneMgr

/-- Claim C9: with the three-object scene loaded, toggling "o1" and
then "o3" into the Selection and running the wired selective export
(stl format, combined file checked) issues exactly one request, whose
body carries `object_ids = ["o1", "o3"]` — the selected ids in
selection order. -/
theorem c9_selective_export_object_ids :
    (requestExportSelective
        (toggleObjectSelection
          (toggleObjectSelection
            { currentScene := some sceneO, selectedObjects := [] } "o1" true)
          "o3" true)
        (some "stl") none (some true)
        (FetchOutcome.reply true { success := true, error := none })).2 =
      [Effect.showModal "Export Scene", Effect.closeModal,
       Effect.showLoading "Exporting...",
       Effect.fetch (Request.postExport "S"
         { export_type := "selective", format := "stl", filename := none,
           object_id := none, object_ids := some ["o1", "o3"],
           combined_file := some true }),
       Effect.showModal "Export Complete", Effect.hideLoading] := by
  decide

/-- Claim C10: `createScene` is total at its boundary — it returns
exactly the server-assigned id on success and `null` on any failure
(transport throw or `success: false`), reporting the error in the
failure cases, and never mutates the session state; and
`submitCreateScene` (with the scene dropdown present and a valid name)
triggers the auto-load exactly when the returned id is truthy. -/
theorem c10_create_scene_result_and_autoload (st : SMState) (name : String)
    (description : Option String) (createOut : FetchOutcome CreateSceneResp) :
    (createScene st name description createOut).1 = createdId createOut ∧
    (createScene st name description createOut).2.1 = st ∧
    (createdId createOut = none →
      hasErrorNotify (createScene st name description createOut).2.2 = true) ∧
    (∀ nameField descField loadOut,
      jsFalsyStr (nameField.map jsTrim) = false →
      autoLoadOccurred (submitCreateScene st nameField descField true
          createOut loadOut).2 = jsTruthyOptStr (createdId createOut)) := by
  cases createOut with
  | thrown =>
    refine ⟨rfl, rfl, fun _ => rfl, ?_⟩
    intro nameField descField loadOut h
    simp [submitCreateScene, createScene, createdId, autoLoadOccurred,
      jsTruthyOptStr, h]
  | reply ok data =>
    by_cases hd : data.success
    · refine ⟨?_, ?_, ?_, ?_⟩
      · simp [createScene, createdId, hd]
      · simp [createScene, hd]
      · intro hcontra
        simp [createdId, hd] at hcontra
      · intro nameField descField loadOut h
        by_cases hid : data.scene_id = ""
        · simp [submitCreateScene, createScene, createdId, autoLoadOccurred,
            jsTruthyOptStr, h, hd, hid]
        · simp [submitCreateScene, createScene, createdId, autoLoadOccurred,
            jsTruthyOptStr, loadScene, h, hd, hid]
    · refine ⟨?_, ?_, ?_, ?_⟩
      · simp [createScene, createdId, hd]
      · simp [createScene, hd]
      · intro _
        simp [createScene, hasErrorNotify, hd]
      · intro nameField descField loadOut h
        simp [submitCreateScene, createScene, createdId, autoLoadOccurred,
          jsTruthyOptStr, h, hd]

/-- Witness for `c10_create_scene_result_and_autoload` at a successful
create assigning id "N1" and a valid name "My Scene". -/
theorem c10_witness :
    (createScene initState "My Scene" (some "office") createOkResp).1 =
      createdId createOkResp ∧
    (createScene initState "My Scene" (some "office") createOkResp).2.1 =
      initState ∧
    (createdId createOkResp = none →
      hasErrorNotify
        (createScene initState "My Scene" (some "office") createOkResp).2.2 =
        true) ∧
    autoLoadOccurred (submitCreateScene initState (some "My Scene")
        (some "office") true createOkResp FetchOutcome.thrown).2 =
      jsTruthyOptStr (createdId createOkResp) := by
  have h := c10_create_scene_result_and_autoload initState "My Scene"
    (some "office") createOkResp
  exact ⟨h.1, h.2.1, h.2.2.1,
    h.2.2.2 (some "My Scene") (some "office") FetchOutcome.thrown (by decide)⟩

end SceneMgr
